import Mathlib

/-!
Verification of the modal visibility / navigation-routing behavior of the
portfolio site, together with its EventBus and Logger services.

The JavaScript source is shallowly embedded:

* `DomState` models the mutable document state seen by the basic fallback
  layer (`initBasicPortfolio` in scripts/main.js): the registry of `.modal`
  elements, the body overflow style, the focused element, the optional
  emergency-close button, and the console log.  DOM elements are identified
  by strings; `console.log` / `console.error` calls are recorded as the
  string literal passed (interpolated DOM objects are elided).
* `EDomState` models the document state seen by the enhanced `Modal`
  component class (one registered modal instance).  Deferred callbacks
  (the `setTimeout` focus move on open and the animation-completion
  callback on close) are modeled as part of the completed effect of the
  operation that schedules them; `element.focus()` follows DOM semantics
  and is a no-op on an element that is not connected to the document.
* `EventBus` and `LoggerState` embed scripts/core/EventBus.js and
  scripts/core/Logger.js.
-/

/-- A `.modal` element: its id, inline styles written by the scripts, and
its `aria-hidden` attribute. -/
structure ModalElem where
  id : String
  display : String
  opacity : String
  zIndex : String
  ariaHidden : String
deriving DecidableEq

/-- Document state manipulated by the basic fallback layer
(`initBasicPortfolio`).  `emergencyBtn` is the display style of the
`#emergency-close` element when that element exists; `navKeys` lists the
fragment keys for which a `nav a` link exists; `scrolledTop` records
whether `window.scrollTo` to the top was performed; `defaultPrevented`
records `e.preventDefault()`. -/
structure DomState where
  modals : List ModalElem
  bodyOverflow : String
  focusedElem : String
  scrolledTop : Bool
  defaultPrevented : Bool
  emergencyBtn : Option String
  navKeys : List String
  consoleLog : List String
deriving DecidableEq

/-- The `navMap` object literal shared by the basic layer and the inline
script in index.html. -/
def navMap (hash : String) : Option String :=
  if hash == "experience" then some "modal-experience"
  else if hash == "education" then some "modal-education"
  else if hash == "projects" then some "modal-projects"
  else if hash == "skills" then some "modal-skills"
  else if hash == "contact" then some "modal-contact"
  else none

/-- Lookup `document.getElementById` restricted to the modal registry: the first
element whose id matches. -/
def findModal (d : DomState) (mid : String) : Option ModalElem :=
  d.modals.find? (fun m => m.id == mid)

/-- Apply `f` to the element whose id is `mid`, leaving the others
untouched (the effect of writing styles on a looked-up element). -/
def updateModal (ms : List ModalElem) (mid : String) (f : ModalElem → ModalElem) :
    List ModalElem :=
  ms.map (fun m => if m.id == mid then f m else m)

/-- Record a console line. -/
def logd (d : DomState) (msg : String) : DomState :=
  { d with consoleLog := d.consoleLog ++ [msg] }

/-- Write of display flex on the emergency button, guarded by the element
existing. -/
def showEmergency (d : DomState) : DomState :=
  match d.emergencyBtn with
  | some _ => { d with emergencyBtn := some "flex" }
  | none => d

/-- Write of display none on the emergency button, guarded by the element
existing. -/
def hideEmergency (d : DomState) : DomState :=
  match d.emergencyBtn with
  | some _ => { d with emergencyBtn := some "none" }
  | none => d

/-- The style and attribute writes performed when the basic layer opens a
modal.  In the source the emergency-button show is interleaved between the
style writes and the aria write; the final state is the same. -/
def openStyles (m : ModalElem) : ModalElem :=
  { m with display := "flex", opacity := "1", zIndex := "10000", ariaHidden := "false" }

/-- The navigation click handler of the basic layer, after the href has been
parsed to its fragment (`href.replace` of the leading hash mark).  Mirrors
the body of the `navLinks` click listener in `initBasicPortfolio`: log the
click, look the fragment up in `navMap`; on a modal key call
`preventDefault`, look the element up, and either write the open
styles / aria-hidden / body overflow and show the emergency button, or
log `Modal not found`; on the key `hero` call `preventDefault` and scroll
to the top; otherwise do nothing (default navigation proceeds).  The
deferred focus of the first focusable descendant runs from a `setTimeout`
and is not part of this synchronous handler. -/
def navClickHash (d : DomState) (hash : String) : DomState :=
  let d := logd d ("Navigation clicked: " ++ hash)
  match navMap hash with
  | some mid =>
    let d := { d with defaultPrevented := true }
    match findModal d mid with
    | some _ =>
      let d := logd d ("Opening modal: " ++ mid)
      let d := { d with modals := updateModal d.modals mid openStyles }
      let d := showEmergency d
      { d with bodyOverflow := "hidden" }
    | none => logd d ("Modal not found: " ++ mid)
  | none =>
    if hash == "hero" then { d with defaultPrevented := true, scrolledTop := true }
    else d

/-- Test whether `s` starts with `p`, phrased over the character list so that concrete
states evaluate by structural recursion. -/
def strStartsWith (s p : String) : Bool :=
  List.isPrefixOf p.toList s.toList

/-- Drop the first `n` characters, phrased over the character list. -/
def strDrop (s : String) (n : Nat) : String :=
  String.mk (s.toList.drop n)

/-- The guard of the click listener: return unless the href starts with a
hash mark; `href.replace` then removes that leading character. -/
def navClick (d : DomState) (href : String) : DomState :=
  if strStartsWith href "#" then navClickHash d (strDrop href 1) else d

/-- Removal (`replace`) of the `modal-` marker from an id: for the ids occurring in
this document the marker occurs only as the leading six characters. -/
def stripModal (s : String) : String :=
  if strStartsWith s "modal-" then strDrop s 6 else s

/-- The `closeModal` helper of the basic layer.  The caller always passes
an element it has looked up, so the null guard at the top of the source
function is invisible here.  Note there is no check that the modal is
open: the writes happen unconditionally. -/
def closeModalB (d : DomState) (mid : String) : DomState :=
  let d := logd d ("closeModal called for: " ++ mid)
  let d := { d with
    modals := updateModal d.modals mid
      (fun m => { m with display := "none", ariaHidden := "true" }) }
  let d := { d with bodyOverflow := "" }
  let d := hideEmergency d
  let key := stripModal mid
  let d : DomState :=
    { d with focusedElem :=
        if key ∈ d.navKeys then "nav:" ++ key else d.focusedElem }
  logd d ("Modal closed successfully: " ++ mid)

/-- Embeds `window.closeAllModals`: hide every `.modal`, set aria-hidden on all,
release the body overflow, hide the emergency button. -/
def closeAllModals (d : DomState) : DomState :=
  let d := logd d "Emergency close all modals"
  let d := { d with
    modals := d.modals.map
      (fun m : ModalElem => { m with display := "none", ariaHidden := "true" }) }
  let d := { d with bodyOverflow := "" }
  let d := hideEmergency d
  logd d "All modals closed"

/-- The document `keydown` listener of the basic layer: on Escape it runs
the emergency close. -/
def keydown (d : DomState) (key : String) : DomState :=
  let d := logd d ("Key pressed: " ++ key)
  if key == "Escape" then
    let d := logd d "Escape key pressed - emergency close"
    closeAllModals d
  else d

/-- The click listener attached to each modal root: a click reaching the
modal element closes it only when the event target is the modal root
itself (`e.target === modal`); `targetIsRoot` records that comparison. -/
def modalClick (d : DomState) (mid : String) (targetIsRoot : Bool) : DomState :=
  let d := logd d "Modal clicked"
  if targetIsRoot then
    let d := logd d ("Backdrop clicked, closing modal: " ++ mid)
    closeModalB d mid
  else d

/-- A modal is in the Open state exactly when its display style is flex
(this is `Modal.isOpen` and also the open test used by the close-button
handler). -/
def isOpenB (m : ModalElem) : Bool := m.display == "flex"

section FindLemmas

theorem find?_updateModal_self (ms : List ModalElem) (mid : String)
    (f : ModalElem → ModalElem) (hf : ∀ m, (f m).id = m.id) :
    (updateModal ms mid f).find? (fun m => m.id == mid)
      = (ms.find? (fun m => m.id == mid)).map f := by
  induction ms with
  | nil => rfl
  | cons m ms ih =>
    simp only [updateModal, List.map_cons]
    simp only [updateModal] at ih
    by_cases h : m.id = mid
    · rw [if_pos (by simp [h]), List.find?_cons_of_pos _ (by simp [hf m, h]),
        List.find?_cons_of_pos _ (by simp [h])]
      simp
    · rw [if_neg (by simp [h]), List.find?_cons_of_neg _ (by simp [h]),
        List.find?_cons_of_neg _ (by simp [h])]
      exact ih

theorem find?_updateModal_other (ms : List ModalElem) (mid x : String)
    (f : ModalElem → ModalElem) (hx : x ≠ mid) (hf : ∀ m, (f m).id = m.id) :
    (updateModal ms mid f).find? (fun m => m.id == x)
      = ms.find? (fun m => m.id == x) := by
  induction ms with
  | nil => rfl
  | cons m ms ih =>
    simp only [updateModal, List.map_cons]
    simp only [updateModal] at ih
    by_cases h : m.id = mid
    · have hmx : m.id ≠ x := by rw [h]; exact fun hh => hx hh.symm
      rw [if_pos (by simp [h]), List.find?_cons_of_neg _ (by simp [hf m, hmx]),
        List.find?_cons_of_neg _ (by simp [hmx])]
      exact ih
    · rw [if_neg (by simp [h])]
      by_cases hmx : m.id = x
      · rw [List.find?_cons_of_pos _ (by simp [hmx]),
          List.find?_cons_of_pos _ (by simp [hmx])]
      · rw [List.find?_cons_of_neg _ (by simp [hmx]),
          List.find?_cons_of_neg _ (by simp [hmx])]
        exact ih

theorem find?_map_id_preserving (ms : List ModalElem) (x : String)
    (g : ModalElem → ModalElem) (hg : ∀ m, (g m).id = m.id) :
    (ms.map g).find? (fun m => m.id == x)
      = (ms.find? (fun m => m.id == x)).map g := by
  induction ms with
  | nil => rfl
  | cons m ms ih =>
    simp only [List.map_cons]
    by_cases h : m.id = x
    · rw [List.find?_cons_of_pos _ (by simp [hg m, h]),
        List.find?_cons_of_pos _ (by simp [h])]
      simp
    · rw [List.find?_cons_of_neg _ (by simp [hg m, h]),
        List.find?_cons_of_neg _ (by simp [h])]
      exact ih

end FindLemmas

/-- Document state seen by the enhanced `Modal` component (one registered
modal instance).  `display` and `ariaHidden` belong to the modal element;
`hasContent` records whether the element has a `.modal-content` child
(every modal in index.html does); `firstFocusable` is the first focusable
descendant per `getFocusableElements`; `previouslyFocused` is the
component field of that name; `activeElement` is `document.activeElement`;
`attached` lists the elements currently connected to the document;
`activeModal` is the AppState key of that name. -/
structure EDomState where
  display : String
  ariaHidden : String
  hasContent : Bool
  firstFocusable : Option String
  previouslyFocused : Option String
  activeElement : String
  attached : List String
  bodyOverflow : String
  activeModal : Option String
  modalId : String
deriving DecidableEq

/-- Embeds `Modal.isOpen`: the display style is flex. -/
def eIsOpen (d : EDomState) : Bool := d.display == "flex"

/-- Embeds `element.focus()`: moves `document.activeElement` to the element, and
is a no-op when the element is not connected to the document. -/
def focusElem (d : EDomState) (e : String) : EDomState :=
  if e ∈ d.attached then { d with activeElement := e } else d

/-- Embeds `Modal.open`: return if already open; publish `modal:close-all` (with
this single registered modal closed, a no-op); capture
`document.activeElement` into `previouslyFocused`; show the modal and set
aria-hidden false; `applyAnimation` adds then removes a CSS class (no
persistent state); set the AppState `activeModal`; lock body scroll.  The
focus move to the first focusable descendant is scheduled with
`setTimeout` and modeled here as the completed effect of that timeout. -/
def eOpen (d : EDomState) : EDomState :=
  if eIsOpen d then d
  else
    let d := { d with previouslyFocused := some d.activeElement }
    let d := { d with display := "flex", ariaHidden := "false" }
    let d := { d with activeModal := some d.modalId }
    let d := { d with bodyOverflow := "hidden" }
    match d.firstFocusable with
    | some f => focusElem d f
    | none => d

/-- Embeds `Modal.close`: return if not open; `applyAnimation` with the hide
callback — when the element has no `.modal-content` child the animation
helper returns before scheduling, so the callback never runs and nothing
changes; otherwise (modeled as the completed effect of the animation
timeout) hide the modal, set aria-hidden true, call `focus()` on
`previouslyFocused` when set, release body scroll, and clear the AppState
`activeModal`.  The `previouslyFocused` field itself is left as it was:
the source never resets it. -/
def eClose (d : EDomState) : EDomState :=
  if !eIsOpen d then d
  else if !d.hasContent then d
  else
    let d := { d with display := "none", ariaHidden := "true" }
    let d := match d.previouslyFocused with
      | some p => focusElem d p
      | none => d
    let d := { d with bodyOverflow := "" }
    { d with activeModal := none }

/-- scripts/core/EventBus.js: events map event names to subscriber lists.
A callback takes the published data and either returns a value or throws,
which we model with `Except`. -/
structure EventBus (α β : Type) where
  events : List (String × List (α → Except String β))

/-- Lookup `this.events` at an event name: the registered subscriber list. -/
def lookupEvent (b : EventBus α β) (event : String) :
    Option (List (α → Except String β)) :=
  (b.events.find? (fun p => p.1 == event)).map (fun p => p.2)

/-- Embeds `EventBus.subscribe`: create the list on first use, then push. -/
def subscribeEvent (b : EventBus α β) (event : String)
    (cb : α → Except String β) : EventBus α β :=
  match lookupEvent b event with
  | none => { events := b.events ++ [(event, [cb])] }
  | some _ =>
    { events := b.events.map
        (fun p => if p.1 == event then (p.1, p.2 ++ [cb]) else p) }

/-- Embeds `EventBus.publish`: if no list is registered, return; otherwise invoke
every callback in order, each inside its own try/catch, so a thrown error
is recorded and iteration continues.  The bus itself is not modified; the
returned list is the outcome of each invocation in order. -/
def publishEvent (b : EventBus α β) (event : String) (data : α) :
    EventBus α β × List (Except String β) :=
  match lookupEvent b event with
  | none => (b, [])
  | some cbs => (b, cbs.map (fun cb => cb data))

/-- Embeds `EventBus.listenerCount`. -/
def listenerCount (b : EventBus α β) (event : String) : Nat :=
  match lookupEvent b event with
  | none => 0
  | some cbs => cbs.length

/-- A stored log entry (scripts/core/Logger.js).  The timestamp, payload
and captured stack are opaque to the claims and elided. -/
structure LogEntry where
  level : String
  message : String
deriving DecidableEq

/-- Logger state: the numeric threshold `currentLevel`, the in-memory
`logs` array, and the cap `maxLogs` (1000 in the constructor). -/
structure LoggerState where
  currentLevel : Nat
  logs : List LogEntry
  maxLogs : Nat
deriving DecidableEq

/-- The `levels` table: ERROR 0, WARN 1, DEBUG 3.  An unknown name yields
`undefined` in the source, for which the comparison below is false. -/
def levelNum (level : String) : Option Nat :=
  if level == "ERROR" then some 0
  else if level == "WARN" then some 1
  else if level == "INFO" then some 2
  else if level == "DEBUG" then some 3
  else none

/-- The Logger constructor state: level INFO, empty logs, cap 1000. -/
def initLogger : LoggerState := { currentLevel := 2, logs := [], maxLogs := 1000 }

/-- Embeds `Logger.log`: when the level passes the threshold, push the entry and,
if the array length now exceeds `maxLogs`, keep only the most recent
`maxLogs` entries (`slice` from the end, i.e. drop from the front). -/
def loggerLog (s : LoggerState) (level message : String) : LoggerState :=
  match levelNum level with
  | some lv =>
    if lv ≤ s.currentLevel then
      let logs1 := s.logs ++ [{ level := level, message := message }]
      let logs2 :=
        if s.maxLogs < logs1.length then logs1.drop (logs1.length - s.maxLogs)
        else logs1
      { s with logs := logs2 }
    else s
  | none => s

/-- Embeds `Logger.setLevel`: only known level names change the threshold. -/
def loggerSetLevel (s : LoggerState) (level : String) : LoggerState :=
  match levelNum level with
  | some lv => { s with currentLevel := lv }
  | none => s

/-- One public Logger operation. -/
inductive LogOp where
  | opError (m : String)
  | opWarn (m : String)
  | opInfo (m : String)
  | opDebug (m : String)
  | opLog (level m : String)
  | opClear
  | opSetLevel (level : String)
deriving DecidableEq

/-- Run one Logger operation: `error` / `warn` / `info` / `debug` delegate
to `log` with the corresponding level name; `clear` empties the array. -/
def runLogOp (s : LoggerState) : LogOp → LoggerState
  | .opError m => loggerLog s "ERROR" m
  | .opWarn m => loggerLog s "WARN" m
  | .opInfo m => loggerLog s "INFO" m
  | .opDebug m => loggerLog s "DEBUG" m
  | .opLog level m => loggerLog s level m
  | .opClear => { s with logs := [] }
  | .opSetLevel level => loggerSetLevel s level

/-- Run a sequence of Logger operations. -/
def runLogOps (s : LoggerState) (ops : List LogOp) : LoggerState :=
  ops.foldl runLogOp s

section ProjectionLemmas

@[simp] theorem showEmergency_modals (d : DomState) :
    (showEmergency d).modals = d.modals := by
  unfold showEmergency; cases d.emergencyBtn <;> rfl

@[simp] theorem showEmergency_bodyOverflow (d : DomState) :
    (showEmergency d).bodyOverflow = d.bodyOverflow := by
  unfold showEmergency; cases d.emergencyBtn <;> rfl

@[simp] theorem showEmergency_focusedElem (d : DomState) :
    (showEmergency d).focusedElem = d.focusedElem := by
  unfold showEmergency; cases d.emergencyBtn <;> rfl

@[simp] theorem showEmergency_scrolledTop (d : DomState) :
    (showEmergency d).scrolledTop = d.scrolledTop := by
  unfold showEmergency; cases d.emergencyBtn <;> rfl

@[simp] theorem showEmergency_navKeys (d : DomState) :
    (showEmergency d).navKeys = d.navKeys := by
  unfold showEmergency; cases d.emergencyBtn <;> rfl

@[simp] theorem showEmergency_consoleLog (d : DomState) :
    (showEmergency d).consoleLog = d.consoleLog := by
  unfold showEmergency; cases d.emergencyBtn <;> rfl

@[simp] theorem hideEmergency_modals (d : DomState) :
    (hideEmergency d).modals = d.modals := by
  unfold hideEmergency; cases d.emergencyBtn <;> rfl

@[simp] theorem hideEmergency_bodyOverflow (d : DomState) :
    (hideEmergency d).bodyOverflow = d.bodyOverflow := by
  unfold hideEmergency; cases d.emergencyBtn <;> rfl

@[simp] theorem hideEmergency_focusedElem (d : DomState) :
    (hideEmergency d).focusedElem = d.focusedElem := by
  unfold hideEmergency; cases d.emergencyBtn <;> rfl

@[simp] theorem hideEmergency_navKeys (d : DomState) :
    (hideEmergency d).navKeys = d.navKeys := by
  unfold hideEmergency; cases d.emergencyBtn <;> rfl

@[simp] theorem hideEmergency_consoleLog (d : DomState) :
    (hideEmergency d).consoleLog = d.consoleLog := by
  unfold hideEmergency; cases d.emergencyBtn <;> rfl

@[simp] theorem logd_modals (d : DomState) (s : String) :
    (logd d s).modals = d.modals := rfl

@[simp] theorem logd_bodyOverflow (d : DomState) (s : String) :
    (logd d s).bodyOverflow = d.bodyOverflow := rfl

@[simp] theorem logd_focusedElem (d : DomState) (s : String) :
    (logd d s).focusedElem = d.focusedElem := rfl

@[simp] theorem logd_navKeys (d : DomState) (s : String) :
    (logd d s).navKeys = d.navKeys := rfl

@[simp] theorem logd_scrolledTop (d : DomState) (s : String) :
    (logd d s).scrolledTop = d.scrolledTop := rfl

@[simp] theorem logd_consoleLog (d : DomState) (s : String) :
    (logd d s).consoleLog = d.consoleLog ++ [s] := rfl

@[simp] theorem openStyles_id (m : ModalElem) : (openStyles m).id = m.id := rfl

end ProjectionLemmas

/-- The five modal elements of index.html in their initial, closed state
(no inline styles written yet; `Modal.render` of the enhanced layer also
sets display none and aria-hidden true). -/
def projElem : ModalElem :=
  { id := "modal-projects", display := "none", opacity := "", zIndex := "",
    ariaHidden := "true" }

def skillsElem : ModalElem :=
  { id := "modal-skills", display := "none", opacity := "", zIndex := "",
    ariaHidden := "true" }

def initialModals : List ModalElem :=
  [ { id := "modal-experience", display := "none", opacity := "", zIndex := "",
      ariaHidden := "true" },
    { id := "modal-education", display := "none", opacity := "", zIndex := "",
      ariaHidden := "true" },
    projElem, skillsElem,
    { id := "modal-contact", display := "none", opacity := "", zIndex := "",
      ariaHidden := "true" } ]

/-- The page as loaded: all modals closed, body scroll unlocked, focus on
the body, emergency button present and hidden, the six nav links of
index.html. -/
def pageInit : DomState :=
  { modals := initialModals, bodyOverflow := "", focusedElem := "body",
    scrolledTop := false, defaultPrevented := false,
    emergencyBtn := some "none",
    navKeys := ["hero", "experience", "education", "projects", "skills", "contact"],
    consoleLog := [] }

/-- C4: clicking the navigation link whose fragment is `projects` makes
the modal with id `modal-projects` visible (display becomes the visible
value flex), sets its aria-hidden attribute to false, and locks the body
scroll (overflow hidden). -/
theorem c4_projects_click_opens_modal (d : DomState) (m : ModalElem)
    (h : findModal d "modal-projects" = some m) :
    ((findModal (navClickHash d "projects") "modal-projects").map
        (fun mm => mm.display) = some "flex")
    ∧ ((findModal (navClickHash d "projects") "modal-projects").map
        (fun mm => mm.ariaHidden) = some "false")
    ∧ (navClickHash d "projects").bodyOverflow = "hidden" := by
  have h' : List.find? (fun mm => mm.id == "modal-projects") d.modals = some m := h
  have hupd := find?_updateModal_self d.modals "modal-projects" openStyles
    (fun mm => rfl)
  rw [h'] at hupd
  unfold navClickHash
  rw [show navMap "projects" = some "modal-projects" from rfl]
  simp only [findModal, logd, h']
  refine ⟨?_, ?_, trivial⟩ <;> simp [hupd, openStyles]

/-- C4 witness: the scenario on the freshly loaded page. -/
theorem c4_witness :
    findModal pageInit "modal-projects" = some projElem
    ∧ (((findModal (navClickHash pageInit "projects") "modal-projects").map
          (fun mm => mm.display) = some "flex")
        ∧ ((findModal (navClickHash pageInit "projects") "modal-projects").map
            (fun mm => mm.ariaHidden) = some "false")
        ∧ (navClickHash pageInit "projects").bodyOverflow = "hidden") :=
  ⟨by decide, c4_projects_click_opens_modal pageInit projElem (by decide)⟩

section StepLemmas

@[simp] theorem findModal_logd (d : DomState) (s x : String) :
    findModal (logd d s) x = findModal d x := rfl

theorem keydown_escape (d : DomState) :
    keydown d "Escape"
      = closeAllModals (logd (logd d "Key pressed: Escape")
          "Escape key pressed - emergency close") := rfl

theorem findModal_closeAllModals (d : DomState) (x : String) :
    findModal (closeAllModals d) x
      = (findModal d x).map
          (fun m => { m with display := "none", ariaHidden := "true" }) := by
  have hm := find?_map_id_preserving d.modals x
    (fun m : ModalElem => { m with display := "none", ariaHidden := "true" })
    (fun mm => rfl)
  unfold closeAllModals
  simp only [findModal, logd, hideEmergency_modals]
  exact hm

@[simp] theorem closeAllModals_bodyOverflow (d : DomState) :
    (closeAllModals d).bodyOverflow = "" := by
  unfold closeAllModals
  simp

theorem modalClick_true (d : DomState) (mid : String) :
    modalClick d mid true
      = closeModalB (logd (logd d "Modal clicked")
          ("Backdrop clicked, closing modal: " ++ mid)) mid := rfl

theorem modalClick_false (d : DomState) (mid : String) :
    modalClick d mid false = logd d "Modal clicked" := rfl

theorem findModal_closeModalB_self (d : DomState) (mid : String) :
    findModal (closeModalB d mid) mid
      = (findModal d mid).map
          (fun m => { m with display := "none", ariaHidden := "true" }) := by
  have hm := find?_updateModal_self d.modals mid
    (fun m : ModalElem => { m with display := "none", ariaHidden := "true" })
    (fun mm => rfl)
  unfold closeModalB
  simp only [findModal, logd, hideEmergency_modals]
  exact hm

@[simp] theorem closeModalB_bodyOverflow (d : DomState) (mid : String) :
    (closeModalB d mid).bodyOverflow = "" := by
  unfold closeModalB
  simp

end StepLemmas

/-- C5: pressing Escape while a modal (for instance `modal-projects`) is
open hides that modal (display none), sets its aria-hidden attribute to
true, and releases the body scroll lock.  The basic layer routes every
Escape press to the emergency `window.closeAllModals`. -/
theorem c5_escape_closes_modal (d : DomState) (m : ModalElem)
    (h : findModal d "modal-projects" = some m) (_hopen : isOpenB m = true) :
    ((findModal (keydown d "Escape") "modal-projects").map
        (fun mm => mm.display) = some "none")
    ∧ ((findModal (keydown d "Escape") "modal-projects").map
        (fun mm => mm.ariaHidden) = some "true")
    ∧ (keydown d "Escape").bodyOverflow = "" := by
  rw [keydown_escape]
  simp [findModal_closeAllModals, h]

/-- C5 witness: Escape pressed right after `modal-projects` was opened on
the fresh page. -/
theorem c5_witness :
    (findModal (navClickHash pageInit "projects") "modal-projects"
        = some (openStyles projElem)
      ∧ isOpenB (openStyles projElem) = true)
    ∧ (((findModal (keydown (navClickHash pageInit "projects") "Escape")
          "modal-projects").map (fun mm => mm.display) = some "none")
      ∧ ((findModal (keydown (navClickHash pageInit "projects") "Escape")
          "modal-projects").map (fun mm => mm.ariaHidden) = some "true")
      ∧ (keydown (navClickHash pageInit "projects") "Escape").bodyOverflow = "") :=
  ⟨⟨by decide, by decide⟩,
    c5_escape_closes_modal (navClickHash pageInit "projects")
      (openStyles projElem) (by decide) (by decide)⟩

/-- C6: for an open modal, a click whose event target is the modal root
element itself (the backdrop) closes that modal, while a click whose
target is inside the content panel leaves the modal registry, the body
scroll lock and the focus untouched (the backdrop listener compares
`e.target` with the modal root; the close control is a separate trigger
surface with its own listener). -/
theorem c6_backdrop_click (d : DomState) (mid : String) (m : ModalElem)
    (h : findModal d mid = some m) (_hopen : isOpenB m = true) :
    (((findModal (modalClick d mid true) mid).map
        (fun mm => mm.display) = some "none")
      ∧ ((findModal (modalClick d mid true) mid).map
        (fun mm => mm.ariaHidden) = some "true")
      ∧ (modalClick d mid true).bodyOverflow = "")
    ∧ ((modalClick d mid false).modals = d.modals
      ∧ (modalClick d mid false).bodyOverflow = d.bodyOverflow
      ∧ (modalClick d mid false).focusedElem = d.focusedElem) := by
  constructor
  · rw [modalClick_true]
    simp [findModal_closeModalB_self, h]
  · rw [modalClick_false]
    exact ⟨rfl, rfl, rfl⟩

/-- C6 witness: backdrop click and content click on the opened
`modal-projects` of the fresh page. -/
theorem c6_witness :
    (findModal (navClickHash pageInit "projects") "modal-projects"
        = some (openStyles projElem)
      ∧ isOpenB (openStyles projElem) = true)
    ∧ ((((findModal (modalClick (navClickHash pageInit "projects")
            "modal-projects" true) "modal-projects").map
            (fun mm => mm.display) = some "none")
        ∧ ((findModal (modalClick (navClickHash pageInit "projects")
            "modal-projects" true) "modal-projects").map
            (fun mm => mm.ariaHidden) = some "true")
        ∧ (modalClick (navClickHash pageInit "projects")
            "modal-projects" true).bodyOverflow = "")
      ∧ ((modalClick (navClickHash pageInit "projects")
            "modal-projects" false).modals
            = (navClickHash pageInit "projects").modals
        ∧ (modalClick (navClickHash pageInit "projects")
            "modal-projects" false).bodyOverflow
            = (navClickHash pageInit "projects").bodyOverflow
        ∧ (modalClick (navClickHash pageInit "projects")
            "modal-projects" false).focusedElem
            = (navClickHash pageInit "projects").focusedElem)) :=
  ⟨⟨by decide, by decide⟩,
    c6_backdrop_click (navClickHash pageInit "projects") "modal-projects"
      (openStyles projElem) (by decide) (by decide)⟩

/-- C7: activating the navigation fragment `hero` scrolls the viewport to
the document top, opens no modal (the registry is untouched) and leaves
the scroll lock as it was. -/
theorem c7_hero_scrolls_top (d : DomState) :
    (navClickHash d "hero").scrolledTop = true
    ∧ (navClickHash d "hero").modals = d.modals
    ∧ (navClickHash d "hero").bodyOverflow = d.bodyOverflow := by
  unfold navClickHash
  rw [show navMap "hero" = none from rfl]
  simp [logd]

/-- C8: a request to open a modal whose id has no element in the document
raises no exception (the handler is a total function of the state), logs
a diagnostic, and changes no modal state, no aria-hidden attribute and no
scroll lock. -/
theorem c8_unknown_modal_noop (d : DomState) (hash mid : String)
    (hmap : navMap hash = some mid) (hmiss : findModal d mid = none) :
    (navClickHash d hash).modals = d.modals
    ∧ (navClickHash d hash).bodyOverflow = d.bodyOverflow
    ∧ (navClickHash d hash).focusedElem = d.focusedElem
    ∧ (navClickHash d hash).consoleLog
        = d.consoleLog
          ++ ["Navigation clicked: " ++ hash, "Modal not found: " ++ mid] := by
  have h' : List.find? (fun mm => mm.id == mid) d.modals = none := hmiss
  unfold navClickHash
  rw [hmap]
  simp only [findModal, logd, h']
  simp [logd]

/-- C8 witness: a page whose markup lacks the contact modal. -/
theorem c8_witness :
    (navMap "contact" = some "modal-contact"
      ∧ findModal { pageInit with modals := [] } "modal-contact" = none)
    ∧ ((navClickHash { pageInit with modals := [] } "contact").modals
        = ({ pageInit with modals := [] } : DomState).modals
      ∧ (navClickHash { pageInit with modals := [] } "contact").bodyOverflow
        = ({ pageInit with modals := [] } : DomState).bodyOverflow
      ∧ (navClickHash { pageInit with modals := [] } "contact").focusedElem
        = ({ pageInit with modals := [] } : DomState).focusedElem
      ∧ (navClickHash { pageInit with modals := [] } "contact").consoleLog
        = ({ pageInit with modals := [] } : DomState).consoleLog
          ++ ["Navigation clicked: " ++ "contact",
              "Modal not found: " ++ "modal-contact"]) :=
  ⟨⟨by decide, by decide⟩,
    c8_unknown_modal_noop { pageInit with modals := [] } "contact"
      "modal-contact" (by decide) (by decide)⟩

/-- C1 counterexample: on the freshly loaded page, clicking the
`projects` nav link and then the `skills` nav link through the basic
layer leaves BOTH `modal-projects` and `modal-skills` in the Open state
(display flex): the claimed at-most-one-open invariant fails, because
the basic open path never closes other modals. -/
theorem c1_counterexample :
    ¬ ((((navClickHash (navClickHash pageInit "projects") "skills").modals.filter
          (fun m => isOpenB m)).length) ≤ 1) := by
  decide

/-- C1 (amended): opening a modal through the basic layer does not close
any other modal: for every other id, the lookup result is unchanged by
the open.  (Only the enhanced `Modal.open` requests closing of other
open modals, by publishing `modal:close-all`; the basic and inline
layers leave any other open modal open, so more than one modal can be
Open at a time.) -/
theorem c1_basic_open_preserves_others (d : DomState) (hash mid x : String)
    (hmap : navMap hash = some mid) (hx : x ≠ mid) :
    findModal (navClickHash d hash) x = findModal d x := by
  unfold navClickHash
  rw [hmap]
  cases hfind : List.find? (fun mm => mm.id == mid) d.modals with
  | none =>
    simp only [findModal, logd, hfind]
  | some m =>
    simp only [findModal, logd, hfind, showEmergency_modals]
    exact find?_updateModal_other d.modals mid x openStyles hx
      (fun mm => rfl)

/-- C1 witness: after opening `modal-projects`, opening `modal-skills`
leaves the (open) projects record untouched. -/
theorem c1_witness :
    (navMap "skills" = some "modal-skills"
      ∧ "modal-projects" ≠ "modal-skills")
    ∧ findModal (navClickHash (navClickHash pageInit "projects") "skills")
        "modal-projects"
      = findModal (navClickHash pageInit "projects") "modal-projects" :=
  ⟨⟨by decide, by decide⟩,
    c1_basic_open_preserves_others (navClickHash pageInit "projects")
      "skills" "modal-skills" "modal-projects" (by decide) (by decide)⟩

/-- An enhanced-layer state: the registered modal closed, a content
panel present, focus on a trigger element, no scroll lock. -/
def ePage : EDomState :=
  { display := "none", ariaHidden := "true", hasContent := true,
    firstFocusable := some "close-btn", previouslyFocused := none,
    activeElement := "trigger", attached := ["trigger", "close-btn"],
    bodyOverflow := "", activeModal := none, modalId := "modal-projects" }

/-- C2 counterexample: start from `ePage` with a pre-open body overflow
of scroll.  After `open` then `close`, the body overflow is the empty
string, not the pre-open value, and the captured previously-focused
reference is still set rather than cleared: the round trip does not
restore the pre-open scroll state and does not clear the reference. -/
theorem c2_counterexample :
    ¬ ((eClose (eOpen { ePage with bodyOverflow := "scroll" })).bodyOverflow
          = ({ ePage with bodyOverflow := "scroll" } : EDomState).bodyOverflow
        ∧ (eClose (eOpen { ePage with bodyOverflow := "scroll" })).previouslyFocused
          = none) := by
  decide

/-- C2 (amended): for every pre-open state whose modal is closed and has
a content panel, and whose active element is attached, `open` then
`close` sets the body overflow to the empty string (an unconditional
release of the scroll lock, not a restoration of the captured pre-open
value), moves focus back to the element that was focused immediately
before `open`, and leaves `previouslyFocused` holding that element (the
reference is never cleared). -/
theorem c2_open_close_roundtrip (d : EDomState)
    (hclosed : eIsOpen d = false) (hcontent : d.hasContent = true)
    (hatt : d.activeElement ∈ d.attached) :
    (eClose (eOpen d)).bodyOverflow = ""
    ∧ (eClose (eOpen d)).activeElement = d.activeElement
    ∧ (eClose (eOpen d)).previouslyFocused = some d.activeElement := by
  unfold eOpen
  rw [hclosed]
  simp only [Bool.false_eq_true, if_false]
  cases hff : d.firstFocusable with
  | none =>
    unfold eClose focusElem
    simp [eIsOpen, hcontent, hatt]
  | some f =>
    unfold eClose focusElem
    by_cases hfa : f ∈ d.attached <;>
      simp [eIsOpen, hcontent, hatt, hfa]

/-- C2 witness: the round trip on `ePage`. -/
theorem c2_witness :
    (eIsOpen ePage = false ∧ ePage.hasContent = true
      ∧ ePage.activeElement ∈ ePage.attached)
    ∧ ((eClose (eOpen ePage)).bodyOverflow = ""
      ∧ (eClose (eOpen ePage)).activeElement = ePage.activeElement
      ∧ (eClose (eOpen ePage)).previouslyFocused = some ePage.activeElement) :=
  ⟨⟨by decide, by decide, by decide⟩,
    c2_open_close_roundtrip ePage (by decide) (by decide) (by decide)⟩

/-- C3 counterexample: `modal-projects` is already closed on this page,
yet the body scroll is locked (overflow hidden) and focus sits on the
body.  The basic-layer `closeModal` helper, called on this closed modal,
still clears the scroll lock and still moves focus to the nav trigger:
it is not a no-op. -/
theorem c3_counterexample :
    (closeModalB { pageInit with bodyOverflow := "hidden" } "modal-projects").bodyOverflow
        ≠ ({ pageInit with bodyOverflow := "hidden" } : DomState).bodyOverflow
    ∧ (closeModalB { pageInit with bodyOverflow := "hidden" } "modal-projects").focusedElem
        ≠ ({ pageInit with bodyOverflow := "hidden" } : DomState).focusedElem := by
  constructor <;> decide

/-- C3 (amended): the enhanced `Modal.close` really is a no-op on a
modal that is already closed (the `isOpen` guard returns before any
write); the basic-layer `closeModal` helper has no such guard: whatever
the prior state, it rewrites the modal record to display none and
aria-hidden true, sets the body overflow to the empty string, and (when
the nav trigger exists) moves focus to it. -/
theorem c3_close_idempotence (e : EDomState) (d : DomState) (mid : String)
    (m : ModalElem) (hclosed : eIsOpen e = false) (hfind : findModal d mid = some m) :
    eClose e = e
    ∧ (closeModalB d mid).bodyOverflow = ""
    ∧ findModal (closeModalB d mid) mid
        = some { m with display := "none", ariaHidden := "true" } := by
  refine ⟨?_, closeModalB_bodyOverflow d mid, ?_⟩
  · unfold eClose
    rw [hclosed]
    simp
  · rw [findModal_closeModalB_self, hfind]
    rfl

/-- C3 witness: the enhanced no-op on `ePage`, and the unguarded basic
helper on the closed `modal-projects` of the fresh page. -/
theorem c3_witness :
    (eIsOpen ePage = false ∧ findModal pageInit "modal-projects" = some projElem)
    ∧ (eClose ePage = ePage
      ∧ (closeModalB pageInit "modal-projects").bodyOverflow = ""
      ∧ findModal (closeModalB pageInit "modal-projects") "modal-projects"
          = some { projElem with display := "none", ariaHidden := "true" }) :=
  ⟨⟨by decide, by decide⟩,
    c3_close_idempotence ePage pageInit "modal-projects" projElem
      (by decide) (by decide)⟩

/-- C9: publishing an event with no registered subscriber list returns
without error and changes nothing; with subscribers, every callback is
invoked inside its own try/catch, so a throwing subscriber does not stop
the remaining ones: the bus is unchanged, the outcome trace has exactly
one entry per subscriber, and the outcome of every subscriber occurs in
it. -/
theorem c9_publish_safe {α β : Type} (b : EventBus α β) (event : String)
    (data : α) :
    (publishEvent b event data).1 = b
    ∧ (lookupEvent b event = none → (publishEvent b event data).2 = [])
    ∧ (publishEvent b event data).2.length = listenerCount b event
    ∧ (∀ cbs, lookupEvent b event = some cbs →
        ∀ cb ∈ cbs, cb data ∈ (publishEvent b event data).2) := by
  unfold publishEvent listenerCount
  cases hl : lookupEvent b event with
  | none => simp
  | some cbs =>
    refine ⟨rfl, by simp, by simp, ?_⟩
    intro cbs2 hcbs2 cb hmem
    rw [show cbs2 = cbs from (Option.some_injective _ hcbs2).symm] at hmem
    simpa using ⟨cb, hmem, rfl⟩

/-- A bus whose first subscriber to `modal:open` throws and whose second
returns normally. -/
def demoBus : EventBus Nat Nat :=
  { events := [("modal:open",
      [fun _ => Except.error "boom", fun n => Except.ok (n + 1)])] }

/-- An empty bus. -/
def emptyBus : EventBus Nat Nat := { events := [] }

/-- C9 witness: on `demoBus` the trace still has both outcomes even
though the first subscriber throws, and on `emptyBus` publish yields
nothing. -/
theorem c9_witness :
    ((publishEvent demoBus "modal:open" 5).1 = demoBus
      ∧ (publishEvent demoBus "modal:open" 5).2.length
          = listenerCount demoBus "modal:open")
    ∧ (publishEvent emptyBus "modal:open" 5).2 = [] :=
  ⟨⟨(c9_publish_safe demoBus "modal:open" 5).1,
      (c9_publish_safe demoBus "modal:open" 5).2.2.1⟩,
    (c9_publish_safe emptyBus "modal:open" 5).2.1 rfl⟩

section LoggerLemmas

theorem loggerLog_maxLogs (s : LoggerState) (level msg : String) :
    (loggerLog s level msg).maxLogs = s.maxLogs := by
  unfold loggerLog
  cases levelNum level with
  | none => rfl
  | some lv => by_cases h : lv ≤ s.currentLevel <;> simp [h]

theorem loggerSetLevel_logs (s : LoggerState) (level : String) :
    (loggerSetLevel s level).logs = s.logs := by
  unfold loggerSetLevel
  cases levelNum level <;> rfl

theorem loggerSetLevel_maxLogs (s : LoggerState) (level : String) :
    (loggerSetLevel s level).maxLogs = s.maxLogs := by
  unfold loggerSetLevel
  cases levelNum level <;> rfl

theorem loggerLog_length_le (s : LoggerState) (level msg : String)
    (h : s.logs.length ≤ s.maxLogs) :
    (loggerLog s level msg).logs.length ≤ s.maxLogs := by
  unfold loggerLog
  cases levelNum level with
  | none => exact h
  | some lv =>
    by_cases hlv : lv ≤ s.currentLevel
    · simp only [if_pos hlv]
      by_cases hlen :
          s.maxLogs < (s.logs ++ [({ level := level, message := msg } : LogEntry)]).length
      · simp only [if_pos hlen, List.length_drop]
        omega
      · simp only [if_neg hlen]
        omega
    · simp only [if_neg hlv]
      exact h

theorem runLogOp_maxLogs (s : LoggerState) (op : LogOp) :
    (runLogOp s op).maxLogs = s.maxLogs := by
  cases op <;> simp [runLogOp, loggerLog_maxLogs, loggerSetLevel_maxLogs]

theorem runLogOp_length_le (s : LoggerState) (op : LogOp)
    (h : s.logs.length ≤ s.maxLogs) :
    (runLogOp s op).logs.length ≤ (runLogOp s op).maxLogs := by
  rw [runLogOp_maxLogs]
  cases op with
  | opError m => exact loggerLog_length_le s "ERROR" m h
  | opWarn m => exact loggerLog_length_le s "WARN" m h
  | opInfo m => exact loggerLog_length_le s "INFO" m h
  | opDebug m => exact loggerLog_length_le s "DEBUG" m h
  | opLog level m => exact loggerLog_length_le s level m h
  | opClear => simp [runLogOp]
  | opSetLevel level =>
    simp only [runLogOp, loggerSetLevel_logs, loggerSetLevel_maxLogs]
    exact h

theorem runLogOps_length_le (ops : List LogOp) (s : LoggerState)
    (h : s.logs.length ≤ s.maxLogs) :
    (runLogOps s ops).logs.length ≤ (runLogOps s ops).maxLogs := by
  induction ops generalizing s with
  | nil => exact h
  | cons op ops ih => exact ih (runLogOp s op) (runLogOp_length_le s op h)

theorem runLogOps_maxLogs (ops : List LogOp) (s : LoggerState) :
    (runLogOps s ops).maxLogs = s.maxLogs := by
  induction ops generalizing s with
  | nil => rfl
  | cons op ops ih => rw [runLogOps, List.foldl_cons, ← runLogOps, ih,
      runLogOp_maxLogs]

end LoggerLemmas

/-- C10: after any sequence of Logger operations starting from the
constructor state, the in-memory logs array holds at most 1000 entries;
and each single `log` step either leaves the array unchanged (level
filtered out) or produces a suffix of the array with the new entry
appended, i.e. when the cap is exceeded the oldest entries are the ones
discarded. -/
theorem c10_logger_cap :
    (∀ ops : List LogOp, (runLogOps initLogger ops).logs.length ≤ 1000)
    ∧ (∀ (s : LoggerState) (level message : String),
        (loggerLog s level message).logs = s.logs
        ∨ (loggerLog s level message).logs.IsSuffix
            (s.logs ++ [{ level := level, message := message }])) := by
  constructor
  · intro ops
    have h := runLogOps_length_le ops initLogger (by simp [initLogger])
    rwa [runLogOps_maxLogs] at h
  · intro s level message
    unfold loggerLog
    cases levelNum level with
    | none => exact Or.inl rfl
    | some lv =>
      by_cases hlv : lv ≤ s.currentLevel
      · refine Or.inr ?_
        simp only [if_pos hlv]
        by_cases hlen :
            s.maxLogs
              < (s.logs ++ [({ level := level, message := message } : LogEntry)]).length
        · simp only [if_pos hlen]
          exact List.drop_suffix _ _
        · simp only [if_neg hlen]
          exact List.suffix_refl _
      · exact Or.inl (by simp [if_neg hlv])
